import Mathlib

/-!
Verification development for `src/tools/verify_attestation.py`, the host-side
H-Gate trust verifier.

Modelling conventions (shallow embedding):

* Byte strings are `List Nat` (each element a byte value; the code never
  depends on values exceeding 255 except through `%`-free arithmetic, so no
  normalisation is needed).
* The Ed25519 primitive (`nacl.signing.VerifyKey.verify`, i.e.
  `crypto_sign_verify_detached`) is an external library call; it is embedded
  as an explicit oracle parameter `ed : SigOracle` taking (public key,
  message, signature).  Likewise `hashlib.sha256` is an explicit parameter
  `digest : List Nat → List Nat`.  Theorems quantify over these parameters,
  so they hold for the real primitives in particular.
* PyNaCl raises `ValueError` when the key is not 32 bytes (inside
  `VerifyKey.__init__`) or the detached signature is not 64 bytes (inside
  `VerifyKey.verify`, before any cryptography); neither exception is caught
  by the script, so they escape the function.  A call therefore either
  returns a value or lets an exception propagate; `CallResult` records which.
* The Python functions return a bare `bool` and print a diagnostic naming
  the failure; the distinct diagnostics are what distinguishes the failure
  kinds for an observer, so the embedding's return inductives carry one
  constructor per diagnostic (plus the parsed counter/pcr values that a
  successful call prints).
-/

/-- Oracle for the detached Ed25519 verification primitive: arguments are
public key bytes, message bytes, signature bytes. -/
def SigOracle : Type := List Nat → List Nat → List Nat → Bool

/-- Unhandled exceptions that can escape the Python functions: PyNaCl raises
`ValueError` for a key not exactly 32 bytes (in `VerifyKey.__init__`) and for
a detached signature not exactly 64 bytes (in `VerifyKey.verify`). -/
inductive PyExc where
  | keyLengthValueError
  | sigLengthValueError
deriving DecidableEq

/-- Outcome of calling a Python function: a returned value, or an exception
escaping unhandled. -/
inductive CallResult (α : Type) where
  | ret : α → CallResult α
  | raised : PyExc → CallResult α
deriving DecidableEq

/-- Observable result of `verify_attestation` when it returns: success with
the printed counter and pcr, or one of the two distinct failure
diagnostics. -/
inductive AttRet where
  | valid (counter : Nat) (pcr : List Nat)
  | tooShort
  | sigMismatch
deriving DecidableEq

/-- Observable result of `verify_image` when it returns: success with the
printed payload SHA-256, or one of the four distinct failure diagnostics. -/
inductive ImgRet where
  | validImg (payloadSha256 : List Nat)
  | truncatedHeader
  | badMagic
  | payloadHashMismatch
  | imgSigMismatch
deriving DecidableEq

/-- Little-endian unsigned integer value of a byte list, the embedding of
`struct.unpack_from("<Q", packet, 0)[0]` when applied to `packet.take 8`. -/
def leU64 (bs : List Nat) : Nat :=
  bs.foldr (fun b acc => b + 256 * acc) 0

/-- Embedding of `verify_attestation(pubkey_hex, packet, sig)` from
`src/tools/verify_attestation.py` (lines 19–36), with the hex decoding of the
key done by the caller.  Order of effects in the source: `VerifyKey`
construction (raises on key length ≠ 32), `vk.verify` (raises on signature
length ≠ 64, then runs the Ed25519 check; `BadSignatureError` is caught and
reported as the signature-mismatch diagnostic), then the `len(packet) < 40`
check, then parsing of counter (bytes 0–7, little-endian) and pcr
(bytes 8–39). -/
def verify_attestation (ed : SigOracle) (pubkey packet sig : List Nat) :
    CallResult AttRet :=
  if pubkey.length ≠ 32 then .raised .keyLengthValueError
  else if sig.length ≠ 64 then .raised .sigLengthValueError
  else if ed pubkey packet sig then
    if packet.length < 40 then .ret .tooShort
    else .ret (.valid (leU64 (packet.take 8)) ((packet.drop 8).take 32))
  else .ret .sigMismatch

/-- The literal 4-byte magic `b"HGAT"`. -/
def HGAT : List Nat := [72, 71, 65, 84]

/-- Embedding of `verify_image(pubkey_hex, image_path)` from
`src/tools/verify_attestation.py` (lines 39–69), with the file contents
supplied as the byte list `image`.  The source reads a 100-byte header
(`f.read(4 + 64 + 32)` returns fewer bytes iff the file is shorter), checks
the magic, slices signature and stated payload hash, reads the rest as
payload, recomputes SHA-256 of the payload and compares it with the header
field, and only then constructs `VerifyKey` (raises on key length ≠ 32) and
verifies the signature over the stated `payload_hash` field — not over the
raw payload.  The sliced signature always has length 64 here, so the
PyNaCl signature-length `ValueError` branch is unreachable but kept for
fidelity. -/
def verify_image (digest : List Nat → List Nat) (ed : SigOracle)
    (pubkey image : List Nat) : CallResult ImgRet :=
  if image.length < 100 then .ret .truncatedHeader
  else if image.take 4 ≠ HGAT then .ret .badMagic
  else if digest (image.drop 100) ≠ (image.drop 68).take 32 then
    .ret .payloadHashMismatch
  else if pubkey.length ≠ 32 then .raised .keyLengthValueError
  else if ((image.drop 4).take 64).length ≠ 64 then .raised .sigLengthValueError
  else if ed pubkey ((image.drop 68).take 32) ((image.drop 4).take 64) then
    .ret (.validImg (digest (image.drop 100)))
  else .ret .imgSigMismatch

/-- A sequence of `verify_attestation` calls against the same oracle: the
script holds no state between calls (no module-level mutable variable, no
file, no store), so a call sequence is just the per-call function mapped over
the argument list. -/
def runCalls (ed : SigOracle) (calls : List (List Nat × List Nat × List Nat)) :
    List (CallResult AttRet) :=
  calls.map fun c => verify_attestation ed c.1 c.2.1 c.2.2

/-- Concrete oracle accepting every (key, message, signature) triple; stands
in for the Ed25519 primitive on inputs that were correctly signed. -/
def acceptAll : SigOracle := fun _ _ _ => true

/-- Concrete oracle rejecting every triple; stands in for the Ed25519
primitive on inputs whose signature is invalid. -/
def rejectAll : SigOracle := fun _ _ _ => false

/-- Concrete 32-byte public key used in witnesses. -/
def zeroKey : List Nat := List.replicate 32 0

/-- Concrete 64-byte signature used in witnesses. -/
def zeroSig : List Nat := List.replicate 64 0

/-- Concrete 40-byte attestation packet from the spec scenario: counter 5
little-endian followed by 32 bytes of 0xAA. -/
def packet5AA : List Nat :=
  [5, 0, 0, 0, 0, 0, 0, 0] ++ List.replicate 32 170

/-- Concrete stand-in for the SHA-256 digest in witnesses: constantly a fixed
32-byte value. -/
def constDigest : List Nat → List Nat := fun _ => List.replicate 32 7

/-- C4: for every packet of length at least 40 whose Ed25519 signature under
the given well-formed key is valid, `verify_attestation` returns the success
result whose counter is the little-endian u64 at bytes 0–7 and whose pcr is
bytes 8–39 of the packet. -/
theorem valid_attestation_parses_counter_and_pcr
    (ed : SigOracle) (pk packet sig : List Nat)
    (hpk : pk.length = 32) (hsig : sig.length = 64)
    (hed : ed pk packet sig = true) (hlen : 40 ≤ packet.length) :
    verify_attestation ed pk packet sig =
      CallResult.ret
        (AttRet.valid (leU64 (packet.take 8)) ((packet.drop 8).take 32)) := by
  unfold verify_attestation
  rw [hpk, hsig, hed]
  simp [Nat.not_lt.mpr hlen]

/-- Witness for C4, the spec's concrete scenario: a correctly signed packet
of counter 5 (LE) followed by 32 bytes of 0xAA yields the valid result with
counter 5 and pcr 0xAA…AA. -/
theorem valid_attestation_parses_counter_and_pcr_witness :
    verify_attestation acceptAll zeroKey packet5AA zeroSig =
      CallResult.ret (AttRet.valid 5 (List.replicate 32 170)) := by
  rw [valid_attestation_parses_counter_and_pcr acceptAll zeroKey packet5AA
    zeroSig (by decide) (by decide) rfl (by decide)]
  rfl

/-- C5: for every packet of length at least 40 whose detached signature under
the given well-formed key is invalid, `verify_attestation` fails with the
signature-mismatch diagnostic, a distinct constructor of `AttRet` and hence
distinguishable from every other failure kind. -/
theorem invalid_signature_gives_sig_mismatch
    (ed : SigOracle) (pk packet sig : List Nat)
    (hpk : pk.length = 32) (hsig : sig.length = 64)
    (hed : ed pk packet sig = false) (hlen : 40 ≤ packet.length) :
    verify_attestation ed pk packet sig = CallResult.ret AttRet.sigMismatch := by
  unfold verify_attestation
  rw [hpk, hsig, hed]
  simp

/-- Witness for C5 at a concrete invalidly-signed 40-byte packet. -/
theorem invalid_signature_gives_sig_mismatch_witness :
    verify_attestation rejectAll zeroKey packet5AA zeroSig =
      CallResult.ret AttRet.sigMismatch :=
  invalid_signature_gives_sig_mismatch rejectAll zeroKey packet5AA zeroSig
    (by decide) (by decide) rfl (by decide)

/-- C2 counterexample: on a packet shorter than 40 bytes (here the empty
packet) with an invalid signature, `verify_attestation` fails with the
signature-mismatch diagnostic, not the packet-too-short (TruncatedPacket)
diagnostic — so the truncation failure is not produced regardless of
signature validity, and a signature check is performed first. -/
theorem short_packet_invalid_sig_not_truncated :
    verify_attestation rejectAll zeroKey [] zeroSig =
        CallResult.ret AttRet.sigMismatch ∧
      verify_attestation rejectAll zeroKey [] zeroSig ≠
        CallResult.ret AttRet.tooShort := by
  constructor
  · rfl
  · decide

/-- C2 amended: the signature is checked first; for a packet shorter than 40
bytes with a well-formed key and signature, `verify_attestation` fails with
the packet-too-short (TruncatedPacket) diagnostic when the signature is
valid, and with the signature-mismatch diagnostic when it is invalid. -/
theorem short_packet_after_signature_check
    (ed : SigOracle) (pk packet sig : List Nat)
    (hpk : pk.length = 32) (hsig : sig.length = 64)
    (hlen : packet.length < 40) :
    verify_attestation ed pk packet sig =
      (if ed pk packet sig then CallResult.ret AttRet.tooShort
       else CallResult.ret AttRet.sigMismatch) := by
  unfold verify_attestation
  rw [hpk, hsig]
  by_cases hed : ed pk packet sig
  · rw [hed]
    simp [hlen]
  · simp [hed]

/-- Witness for C2's amended claim: a validly signed empty packet fails as
too short, an invalidly signed one as a signature mismatch. -/
theorem short_packet_after_signature_check_witness :
    verify_attestation acceptAll zeroKey [] zeroSig =
        CallResult.ret AttRet.tooShort ∧
      verify_attestation rejectAll zeroKey [] zeroSig =
        CallResult.ret AttRet.sigMismatch := by
  constructor
  · rw [short_packet_after_signature_check acceptAll zeroKey [] zeroSig
      (by decide) (by decide) (by decide)]
    rfl
  · rw [short_packet_after_signature_check rejectAll zeroKey [] zeroSig
      (by decide) (by decide) (by decide)]
    rfl

/-- C3 counterexample: an empty public key makes `verify_attestation` let a
`ValueError` escape unhandled (raised inside `VerifyKey.__init__`), rather
than return any tagged MalformedKeyOrSignature result or a generic false. -/
theorem malformed_key_raises_unhandled :
    verify_attestation acceptAll [] packet5AA zeroSig =
        CallResult.raised PyExc.keyLengthValueError ∧
      ∀ r : AttRet,
        verify_attestation acceptAll [] packet5AA zeroSig ≠ CallResult.ret r := by
  constructor
  · rfl
  · intro r h
    simp [verify_attestation] at h

/-- C3 amended: a public key not exactly 32 bytes makes `verify_attestation`
raise a `ValueError` from `VerifyKey` construction, and (with a well-formed
key) a signature not exactly 64 bytes makes it raise a `ValueError` from
`VerifyKey.verify`; in both cases the call never returns, so the failure is
an unhandled fault distinguishable from every returned-false diagnostic, not
a tagged MalformedKeyOrSignature result. -/
theorem malformed_key_or_sig_raises
    (ed : SigOracle) (pk packet sig : List Nat) :
    (pk.length ≠ 32 →
      verify_attestation ed pk packet sig =
        CallResult.raised PyExc.keyLengthValueError) ∧
    (pk.length = 32 → sig.length ≠ 64 →
      verify_attestation ed pk packet sig =
        CallResult.raised PyExc.sigLengthValueError) := by
  constructor
  · intro h
    unfold verify_attestation
    simp [h]
  · intro hpk hsig
    unfold verify_attestation
    rw [hpk]
    simp [hsig]

/-- Witness for C3's amended claim at a 0-byte key and a 0-byte signature. -/
theorem malformed_key_or_sig_raises_witness :
    verify_attestation acceptAll [] packet5AA zeroSig =
        CallResult.raised PyExc.keyLengthValueError ∧
      verify_attestation acceptAll zeroKey packet5AA [] =
        CallResult.raised PyExc.sigLengthValueError := by
  constructor
  · exact (malformed_key_or_sig_raises acceptAll [] packet5AA zeroSig).1
      (by decide)
  · exact (malformed_key_or_sig_raises acceptAll zeroKey packet5AA []).2
      (by decide) (by decide)

/-- C9: `verify_attestation` is stateless and deterministic — the script
keeps no state across calls, so a sequence of n identical calls yields n
identical results; in particular a packet accepted once is accepted again on
every later identical call. -/
theorem verify_attestation_stateless_deterministic
    (ed : SigOracle) (pk packet sig : List Nat) (n : Nat) :
    runCalls ed (List.replicate n (pk, packet, sig)) =
      List.replicate n (verify_attestation ed pk packet sig) := by
  simp [runCalls, List.map_replicate]

/-- C1: evaluating the code at the spec's replay scenario — the identical,
validly signed packet (counter 5, pcr 0xAA…AA) submitted twice is accepted
both times with the same valid result; the code keeps no counter store, so
no CounterRegression failure exists anywhere in its behaviour (the type
`AttRet` of observable results has no such constructor), contradicting the
source docstring's promise of monotonic counter non-regression. -/
theorem replayed_packet_accepted_again :
    runCalls acceptAll (List.replicate 2 (zeroKey, packet5AA, zeroSig)) =
      List.replicate 2
        (CallResult.ret (AttRet.valid 5 (List.replicate 32 170))) := by
  decide

/-- Concrete image whose header states a payload hash (32 zero bytes) that
differs from the recomputed digest of its 1-byte payload. -/
def imgBadHash : List Nat := HGAT ++ zeroSig ++ List.replicate 32 0 ++ [1]

/-- Concrete 100-byte image (header only): magic, 64-byte signature, and a
stated payload hash equal to `constDigest` of the empty payload. -/
def img100 : List Nat := HGAT ++ zeroSig ++ List.replicate 32 7

/-- C6 round-trip: for every payload and key, a header of the magic `HGAT`,
a 64-byte signature valid over the payload's digest, and that 32-byte digest,
followed by the payload, makes `verify_image` succeed, returning the valid
result carrying the computed digest. -/
theorem image_roundtrip_verifies
    (digest : List Nat → List Nat) (ed : SigOracle)
    (pk payload sig : List Nat)
    (hpk : pk.length = 32) (hsig : sig.length = 64)
    (hdig : (digest payload).length = 32)
    (hed : ed pk (digest payload) sig = true) :
    verify_image digest ed pk (HGAT ++ sig ++ digest payload ++ payload) =
      CallResult.ret (ImgRet.validImg (digest payload)) := by
  set img := HGAT ++ sig ++ digest payload ++ payload with himg
  have hr1 : img = HGAT ++ (sig ++ (digest payload ++ payload)) := by
    simp [himg, List.append_assoc]
  have hr2 : img = (HGAT ++ sig) ++ (digest payload ++ payload) := by
    simp [himg, List.append_assoc]
  have hlen : img.length = 100 + payload.length := by
    simp [hr1, HGAT, hsig, hdig]
    omega
  have htake4 : img.take 4 = HGAT := by
    rw [hr1]
    have h4 : HGAT.length = 4 := rfl
    exact List.take_left' h4
  have hdrop4 : img.drop 4 = sig ++ (digest payload ++ payload) := by
    rw [hr1]
    have h4 : HGAT.length = 4 := rfl
    exact List.drop_left' h4
  have hsig64 : (img.drop 4).take 64 = sig := by
    rw [hdrop4]
    exact List.take_left' hsig
  have hdrop68 : img.drop 68 = digest payload ++ payload := by
    rw [hr2]
    have h68 : (HGAT ++ sig).length = 68 := by simp [HGAT, hsig]
    exact List.drop_left' h68
  have hhash : (img.drop 68).take 32 = digest payload := by
    rw [hdrop68]
    exact List.take_left' hdig
  have hdrop100 : img.drop 100 = payload := by
    rw [himg]
    have h100 : (HGAT ++ sig ++ digest payload).length = 100 := by
      simp [HGAT, hsig, hdig]
    exact List.drop_left' h100
  unfold verify_image
  rw [hsig64, htake4, hhash, hdrop100, hpk, hsig, hed, hlen]
  simp

/-- Witness for C6 at a concrete payload `[1, 2, 3]`, the constant digest,
and an accepting oracle. -/
theorem image_roundtrip_verifies_witness :
    verify_image constDigest acceptAll zeroKey
        (HGAT ++ zeroSig ++ constDigest [1, 2, 3] ++ [1, 2, 3]) =
      CallResult.ret (ImgRet.validImg (constDigest [1, 2, 3])) :=
  image_roundtrip_verifies constDigest acceptAll zeroKey [1, 2, 3] zeroSig
    (by decide) (by decide) (by decide) rfl

/-- C7: whenever the recomputed digest of the payload differs from the
`payload_hash` field of the header, `verify_image` fails with the
payload-hash-mismatch diagnostic; the result does not depend on the
signature oracle or the key at all (both are universally quantified and
unconstrained), so no signature verification influences it — indeed in
`verify_image` the oracle is only ever applied to the header's `payload_hash`
field, never to the raw payload. -/
theorem payload_hash_mismatch_before_signature
    (digest : List Nat → List Nat) (ed : SigOracle) (pk image : List Nat)
    (hlen : 100 ≤ image.length) (hmagic : image.take 4 = HGAT)
    (hne : digest (image.drop 100) ≠ (image.drop 68).take 32) :
    verify_image digest ed pk image = CallResult.ret ImgRet.payloadHashMismatch := by
  unfold verify_image
  rw [if_neg (Nat.not_lt.mpr hlen), hmagic]
  simp [hne]

/-- Witness for C7: a header stating 32 zero bytes as payload hash while the
digest recomputes to 32 sevens fails with the hash-mismatch diagnostic even
under an oracle that accepts every signature. -/
theorem payload_hash_mismatch_before_signature_witness :
    verify_image constDigest acceptAll zeroKey imgBadHash =
      CallResult.ret ImgRet.payloadHashMismatch :=
  payload_hash_mismatch_before_signature constDigest acceptAll zeroKey
    imgBadHash (by decide) (by decide) (by decide)

/-- C8: `verify_image` checks structure in a fixed order — an input shorter
than 100 bytes fails with the truncated-header diagnostic, and otherwise a
first-4-bytes mismatch with `HGAT` fails with the bad-magic diagnostic; both
results are independent of the digest function, the signature oracle and the
key (all universally quantified and unconstrained), so neither hash
computation nor signature check affects them. -/
theorem image_structural_checks_first
    (digest : List Nat → List Nat) (ed : SigOracle) (pk image : List Nat) :
    (image.length < 100 →
      verify_image digest ed pk image = CallResult.ret ImgRet.truncatedHeader) ∧
    (100 ≤ image.length → image.take 4 ≠ HGAT →
      verify_image digest ed pk image = CallResult.ret ImgRet.badMagic) := by
  constructor
  · intro h
    unfold verify_image
    rw [if_pos h]
  · intro h hm
    unfold verify_image
    rw [if_neg (Nat.not_lt.mpr h), if_pos hm]

/-- Witness for C8: the empty image is reported truncated; a 100-byte image
of zeros (wrong magic) is reported as bad magic. -/
theorem image_structural_checks_first_witness :
    verify_image constDigest acceptAll zeroKey [] =
        CallResult.ret ImgRet.truncatedHeader ∧
      verify_image constDigest acceptAll zeroKey (List.replicate 100 0) =
        CallResult.ret ImgRet.badMagic := by
  constructor
  · exact (image_structural_checks_first constDigest acceptAll zeroKey []).1
      (by decide)
  · exact (image_structural_checks_first constDigest acceptAll zeroKey
      (List.replicate 100 0)).2 (by decide) (by decide)

/-- C10: for an image of exactly 100 bytes and a well-formed key, the payload
is the empty byte string and `verify_image` succeeds (with the digest of the
empty string as its reported payload SHA-256) if and only if the magic is
`HGAT`, the header's `payload_hash` field equals the digest of the empty
string, and the signature over that digest is valid under the given key. -/
theorem image_exactly_100_bytes_iff
    (digest : List Nat → List Nat) (ed : SigOracle) (pk image : List Nat)
    (h100 : image.length = 100) (hpk : pk.length = 32) :
    verify_image digest ed pk image =
        CallResult.ret (ImgRet.validImg (digest [])) ↔
      (image.take 4 = HGAT ∧ (image.drop 68).take 32 = digest [] ∧
        ed pk (digest []) ((image.drop 4).take 64) = true) := by
  have hdrop : image.drop 100 = [] := List.drop_eq_nil_of_le (by omega)
  have hslen : ((image.drop 4).take 64).length = 64 := by
    simp [List.length_take, List.length_drop, h100]
  unfold verify_image
  rw [hdrop, hslen, hpk, h100]
  by_cases hm : image.take 4 = HGAT
  · by_cases hh : (image.drop 68).take 32 = digest ([] : List Nat)
    · by_cases he : ed pk (digest ([] : List Nat)) ((image.drop 4).take 64) = true
      · simp [hm, hh, he]
      · simp [hm, hh, he]
    · have hh' : digest ([] : List Nat) ≠ (image.drop 68).take 32 :=
        fun h => hh h.symm
      simp [hm, hh, hh']
  · simp [hm]

/-- Witness for C10: a concrete 100-byte image whose stated hash matches the
digest of the empty payload verifies successfully under an accepting
oracle. -/
theorem image_exactly_100_bytes_iff_witness :
    verify_image constDigest acceptAll zeroKey img100 =
      CallResult.ret (ImgRet.validImg (List.replicate 32 7)) := by
  have h := (image_exactly_100_bytes_iff constDigest acceptAll zeroKey img100
    (by decide) (by decide)).mpr ⟨by decide, by decide, rfl⟩
  exact h
